import Mathlib

/-!
Verification of the Dockerhood request/status subsystem.

This file gives a shallow embedding of the parts of the Dockerhood
repository that the claims concern:

* `Request` and its `execute` method (dockerhood_libraries/requests.py),
* `RequestManager` (its FIFO + dict pair, `create_request`,
  `get_next_request`, `get_request_status`, `get_answer`, and the
  discard pass of its `run` loop),
* the scheduling skeleton of `RequestManager.run` (tick/sweep cadence),
* the coordinator loop of dockerhood.py (`__main__`),
* the `StatusUpdater.run` loop skeleton (dockerhood_libraries/status.py),
* `DockerhoodStatus.__init__` / `DockerhoodStatus.update`.

Time is modelled in seconds: `Nat` timestamps for request creation and
`ℚ` for the fractional sleep accounting of the background loops
(`responsiveness = 0.5`).
-/

namespace Dockerhood

/-- The observable behaviour of calling a request's `action()`:
it returns a value (Python functions may return `None`, hence
`Option String` as the model of an opaque return value), raises
`SystemExit`, or raises some other exception whose formatted traceback
is the given list of lines (`traceback.format_exc()` split on newlines). -/
inductive ActionOutcome where
  | ok (value : Option String)
  | systemExit
  | error (tracebackLines : List String)
deriving DecidableEq

/-- A `Request` as built by `Request.__init__` (requests.py, lines 46-53):
a uuid, a creation time, the action, a status code and an answer.
The Python `answer` starts as `None`; `Option String` models it. -/
structure Request where
  uuid : String
  creation_time : Nat
  action : ActionOutcome
  status : Int
  answer : Option String
deriving DecidableEq

namespace Request

/-- Status code `Request.PENDING = 1` (requests.py line 41). -/
def PENDING : Int := 1

/-- Status code `Request.EXECUTING = 2` (requests.py line 42). -/
def EXECUTING : Int := 2

/-- Status code `Request.EXECUTED = 3` (requests.py line 43). -/
def EXECUTED : Int := 3

/-- Status code `Request.ERROR = -1` (requests.py line 44). -/
def ERROR : Int := -1

/-- The constructor `Request.__init__`: status starts `PENDING`,
answer starts `None`. The uuid comes from `uuid4()`; the model takes
it as a parameter, and `now` stands for `datetime.now()`. -/
def create (uuid : String) (now : Nat) (action : ActionOutcome) : Request :=
  { uuid := uuid
    creation_time := now
    action := action
    status := PENDING
    answer := none }

/-- The method `Request.age`: time passed since creation
(`datetime.now() - self.creation_time`), in seconds. -/
def age (r : Request) (now : Nat) : Int :=
  (now : Int) - (r.creation_time : Int)

/-- The first statement of `Request.execute` (requests.py line 71):
`self.status = Request.EXECUTING`. -/
def executeStart (r : Request) : Request :=
  { r with status := EXECUTING }

/-- The try/except body of `Request.execute` (requests.py lines 72-86),
run after the status was set to `EXECUTING`. The returned `Bool` tells
whether `SystemExit` propagates out of `execute` (the bare `raise` in
the `except SystemExit` branch); every other exception is swallowed:
the answer becomes the last non-empty line of the formatted traceback
(`[l for l in err_mesg.split('\n') if l != ''][-1]`; on the
impossible all-empty traceback Python would raise `IndexError`, where
`getLast?` yields `none`). -/
def executeFinish (r : Request) : Request × Bool :=
  match r.action with
  | .ok v => ({ r with answer := v, status := EXECUTED }, false)
  | .systemExit => ({ r with status := EXECUTED }, true)
  | .error tb =>
      ({ r with answer := (tb.filter (fun l => l ≠ "")).getLast?
                status := ERROR }, false)

/-- The whole of `Request.execute`. -/
def execute (r : Request) : Request × Bool :=
  r.executeStart.executeFinish

end Request

/-- Lookup in a Python dict modelled as an association list
(`d.get(u, None)` / `d[u]`). -/
def dictGet (d : List (String × Request)) (u : String) : Option Request :=
  match d with
  | [] => none
  | (k, r) :: rest => if k = u then some r else dictGet rest u

/-- Deletion from the dict (`del d[u]`); removes the first binding of
`u`, which with unique keys is the Python behaviour. -/
def dictDel (d : List (String × Request)) (u : String) :
    List (String × Request) :=
  match d with
  | [] => []
  | (k, r) :: rest => if k = u then rest else (k, r) :: dictDel rest u

/-- Assignment `d[u] = r`: overwrite the binding of `u` if present,
otherwise add it. -/
def dictSet (d : List (String × Request)) (u : String) (r : Request) :
    List (String × Request) :=
  match d with
  | [] => [(u, r)]
  | (k, v) :: rest =>
      if k = u then (u, r) :: rest else (k, v) :: dictSet rest u r

/-- The data owned by a `RequestManager` (requests.py lines 122-143):
the uuid→Request dict, the FIFO of uuids (front at the head), and
`discard_time` in seconds (default `timedelta(days=1)` = 86400 s).
The thread plumbing (`stop_flag`, `responsiveness`, the lock) belongs
to the loop model `ReaperLoopState` below; every dict/deque operation
in the source runs under the single `_request_lock`, so the sequential
model is faithful to what any observer can see. -/
structure RequestManager where
  request_dict : List (String × Request)
  request_deque : List String
  discard_time : Int
deriving DecidableEq

namespace RequestManager

/-- `RequestManager.create_request` (requests.py lines 187-217): build
the `Request`, append its uuid to the deque and bind it in the dict;
return the uuid. `uuid` stands for the fresh `uuid4()` and `now` for
`datetime.now()`. -/
def create_request (m : RequestManager) (uuid : String) (now : Nat)
    (action : ActionOutcome) : RequestManager × String :=
  let request := Request.create uuid now action
  ({ m with
      request_deque := m.request_deque ++ [request.uuid]
      request_dict := (request.uuid, request) :: m.request_dict },
   request.uuid)

/-- `RequestManager.get_next_request` (requests.py lines 219-245):
pop the deque head and return the dict entry; `none` when the deque is
empty. (When the head uuid were missing from the dict Python would
raise `KeyError`; the FIFO⊆dict invariant proved below rules that out,
and the model returns the raw lookup.) -/
def get_next_request (m : RequestManager) :
    RequestManager × Option Request :=
  match m.request_deque with
  | [] => (m, none)
  | u :: rest =>
      ({ m with request_deque := rest }, dictGet m.request_dict u)

/-- `RequestManager.get_request_status` (requests.py lines 247-263):
`None` for an unknown uuid, else the request's status. -/
def get_request_status (m : RequestManager) (request_uuid : String) :
    Option Int :=
  match dictGet m.request_dict request_uuid with
  | none => none
  | some request => some request.status

/-- `RequestManager.get_answer` (requests.py lines 265-281): `None`
for an unknown uuid, else the request's answer. In Python both the
"unknown" `None` and a stored `None` answer are the same value, which
the flattened `Option String` result reproduces. -/
def get_answer (m : RequestManager) (request_uuid : String) :
    Option String :=
  match dictGet m.request_dict request_uuid with
  | none => none
  | some request => request.answer

end RequestManager

/-- The discard pass of `RequestManager.run` (requests.py lines
161-178): pop each uuid off the old queue; delete the too-old requests
from the dict, re-append the others to the new queue. The `none`
branch of the lookup is a Python `KeyError`, unreachable while every
queued uuid is in the dict; the model skips such a uuid. -/
def sweepGo (dict : List (String × Request)) (old newQ : List String)
    (now : Nat) (disc : Int) : List (String × Request) × List String :=
  match old with
  | [] => (dict, newQ)
  | u :: rest =>
      match dictGet dict u with
      | none => sweepGo dict rest newQ now disc
      | some request =>
          if request.age now > disc then
            sweepGo (dictDel dict u) rest newQ now disc
          else
            sweepGo dict rest (newQ ++ [u]) now disc

/-- One whole discard pass over a `RequestManager` (the body of the
`if time_passed < 3600: continue` fall-through in `run`). -/
def RequestManager.sweep (m : RequestManager) (now : Nat) :
    RequestManager :=
  let result := sweepGo m.request_dict m.request_deque [] now m.discard_time
  { m with request_dict := result.1, request_deque := result.2 }

/-- The calls the coordinator loop makes on the `StatusUpdater` around
`request.execute()` (dockerhood.py lines 167-170): `pause()`, the
synchronous `update()` (force refresh) and `unpause()`. -/
inductive LoopEvent where
  | pause
  | forceRefresh
  | unpause
deriving DecidableEq

/-- One iteration of the coordinator `while True:` loop of dockerhood.py
(lines 158-170). Returns the manager after the iteration, the
`StatusUpdater` calls the iteration made, and whether `SystemExit`
propagated out of it. With an empty queue the iteration only sleeps.
In Python the `Request` popped from the queue is the very object the
dict references, so its mutation by `execute()` is visible through the
dict; the pure model writes the executed request back at its uuid. -/
def coordinatorBody (m : RequestManager) :
    RequestManager × List LoopEvent × Bool :=
  match m.get_next_request with
  | (m', none) => (m', [], false)
  | (m', some request) =>
      let result := request.execute
      let m'' := { m' with
        request_dict := dictSet m'.request_dict request.uuid result.1 }
      if result.2 then (m'', [.pause], true)
      else (m'', [.pause, .forceRefresh, .unpause], false)

/-- The coordinator loop itself, fuelled: it returns `some` final
manager exactly when some iteration let `SystemExit` propagate (the
`except SystemExit` handler of dockerhood.py line 172), and `none`
when the fuel runs out with the loop still spinning. -/
def coordinatorLoop : Nat → RequestManager → Option RequestManager
  | 0, _ => none
  | n + 1, m =>
      match coordinatorBody m with
      | (m', _, true) => some m'
      | (m', _, false) => coordinatorLoop n m'

/-- The state read and written by one iteration of the
`RequestManager.run` while-loop (requests.py lines 145-184):
the `time_passed` accumulator, the constructor arguments
`responsiveness` and `stop_flag`, and a count of how many times the
discard pass (modelled by `RequestManager.sweep`) has run.
Durations in the loop models are integer tenths of a second, which
represents the source's quantities (`responsiveness = 0.5` s,
one hour = 3600 s, `update_time = 5` s) exactly:
the default responsiveness is `5`, the hour threshold `36000`. -/
structure ReaperLoopState where
  time_passed : Int
  responsiveness : Int
  stop_flag : Bool
  sweeps : Nat
deriving DecidableEq

/-- One iteration of `RequestManager.run`'s loop:
`sleep(responsiveness)`, `time_passed += responsiveness`, break on the
stop flag, `continue` while `time_passed < 3600` seconds (36000 tenths),
else run the discard pass. The returned `Bool` is the `break`. Note the
source never resets `time_passed`. -/
def reaperTick (s : ReaperLoopState) : ReaperLoopState × Bool :=
  let s1 := { s with time_passed := s.time_passed + s.responsiveness }
  if s1.stop_flag then (s1, true)
  else if s1.time_passed < 36000 then (s1, false)
  else ({ s1 with sweeps := s1.sweeps + 1 }, false)

/-- `n` iterations of the `RequestManager.run` loop (stopping early on
`break`). -/
def reaperIter : Nat → ReaperLoopState → ReaperLoopState
  | 0, s => s
  | n + 1, s =>
      let step := reaperTick s
      if step.2 then step.1 else reaperIter n step.1

/-- The state read and written by `StatusUpdater.run` (status.py lines
168-206): the constructor arguments (`stop_flag`, `update_time = 5` s,
`responsiveness = 0.5` s — i.e. `50` and `5` in tenths of a second),
the `_update_now`, `_executed` and `_paused` flags, the
`time_without_update` accumulator, and a count of the
`self._update()` calls (each one a `dockerhood_status.update()`). -/
structure UpdaterLoopState where
  stop_flag : Bool
  update_time : Int
  resp : Int
  update_now : Bool
  executed : Bool
  paused : Bool
  time_without_update : Int
  updates : Nat
deriving DecidableEq

/-- One iteration of the body of the FIRST inner loop of
`StatusUpdater.run` (status.py lines 175-187) — the loop carrying the
periodic-update logic, whose guard in the source is `while
self._paused:`. `sleep(resp)`, accumulate, break on stop, serve a
pending `_update_now`, then the periodic `time_without_update >
update_time` refresh. The `Bool` is the `break`. -/
def updaterTickA (s : UpdaterLoopState) : UpdaterLoopState × Bool :=
  let s1 := { s with
    time_without_update := s.time_without_update + s.resp }
  if s1.stop_flag then (s1, true)
  else
    let s2 :=
      if s1.update_now then
        { s1 with
          time_without_update := 0
          update_now := false
          updates := s1.updates + 1
          executed := true }
      else s1
    let s3 :=
      if s2.time_without_update > s2.update_time then
        { s2 with time_without_update := 0, updates := s2.updates + 1 }
      else s2
    (s3, false)

/-- One iteration of the body of the SECOND inner loop of
`StatusUpdater.run` (status.py lines 192-199), also guarded by `while
self._paused:`: sleep, break on stop, serve a pending `_update_now`;
no periodic refresh and no `time_without_update` accounting. -/
def updaterTickB (s : UpdaterLoopState) : UpdaterLoopState × Bool :=
  if s.stop_flag then (s, true)
  else if s.update_now then
    ({ s with
        update_now := false
        updates := s.updates + 1
        executed := true }, false)
  else (s, false)

/-- The first inner `while self._paused:` loop, fuelled. -/
def updaterLoopA : Nat → UpdaterLoopState → UpdaterLoopState
  | 0, s => s
  | n + 1, s =>
      if s.paused then
        let step := updaterTickA s
        if step.2 then step.1 else updaterLoopA n step.1
      else s

/-- The second inner `while self._paused:` loop, fuelled. -/
def updaterLoopB : Nat → UpdaterLoopState → UpdaterLoopState
  | 0, s => s
  | n + 1, s =>
      if s.paused then
        let step := updaterTickB s
        if step.2 then step.1 else updaterLoopB n step.1
      else s

/-- The outer `while True:` loop of `StatusUpdater.run`, fuelled
(`n` outer iterations, each giving the two inner loops `fA` and `fB`
iterations): run both inner loops, break on the stop flag, otherwise
reset `time_without_update` and go round again. -/
def updaterRun : Nat → Nat → Nat → UpdaterLoopState → UpdaterLoopState
  | 0, _, _, s => s
  | n + 1, fA, fB, s =>
      let s1 := updaterLoopA fA s
      let s2 := updaterLoopB fB s1
      if s2.stop_flag then s2
      else updaterRun n fA fB { s2 with time_without_update := 0 }

/-- The answers the container/image probes give at one instant: the
results of `linker_exists()`, `linker_is_running()`,
`slurm_master_host()`, `slurm_master_is_running()`, `worker_list()`
and, per host, `image_list(host.get_docker_client())`, together with
`config.hosts` (hosts named by strings) and `config.project`. -/
structure Probes where
  linker_exists : Bool
  linker_is_running : Bool
  slurm_master_host : Option String
  slurm_master_is_running : Bool
  worker_list : List String
  image_list : String → List String
  hosts : List String
  project : String

/-- The fields of a `DockerhoodStatus` object (status.py lines 42-57). -/
structure DockerhoodStatus where
  linker_exists : Bool
  linker_is_running : Bool
  slurm_master_exists : Bool
  slurm_master_host : Option String
  slurm_master_is_running : Bool
  worker_list : List String
  images : List (String × List String)

/-- `DockerhoodStatus.update` (status.py lines 59-85): refresh every
field from the probes; `slurm_master_exists` is set from an
`is None` test on the freshly read `slurm_master_host`; the per-host
image lists keep only the tags starting with `config.project + '_'`. -/
def DockerhoodStatus.update (env : Probes) (s : DockerhoodStatus) :
    DockerhoodStatus :=
  let host := env.slurm_master_host
  { s with
    linker_exists := env.linker_exists
    linker_is_running := env.linker_is_running
    slurm_master_host := host
    slurm_master_exists :=
      match host with
      | none => false
      | some _ => true
    slurm_master_is_running := env.slurm_master_is_running
    worker_list := env.worker_list
    images := env.hosts.map fun h =>
      (h, (env.image_list h).filter fun i =>
        i.startsWith (env.project ++ "_")) }

/-- `DockerhoodStatus.__init__` (status.py lines 42-57): all flags
false, no master host, empty worker list, an empty image list per
configured host — then `self.update()`. -/
def DockerhoodStatus.init (env : Probes) : DockerhoodStatus :=
  DockerhoodStatus.update env
    { linker_exists := false
      linker_is_running := false
      slurm_master_exists := false
      slurm_master_host := none
      slurm_master_is_running := false
      worker_list := []
      images := env.hosts.map fun h => (h, []) }

/-!  Helper lemmas about the dict operations. -/

theorem dictGet_dictSet_self (d : List (String × Request)) (u : String)
    (r : Request) : dictGet (dictSet d u r) u = some r := by
  induction d with
  | nil => simp [dictSet, dictGet]
  | cons p rest ih =>
      obtain ⟨k, v⟩ := p
      by_cases h : k = u <;> simp [dictSet, dictGet, h, ih]

theorem dictGet_dictDel_ne (d : List (String × Request)) (u v : String)
    (h : v ≠ u) : dictGet (dictDel d u) v = dictGet d v := by
  induction d with
  | nil => simp [dictDel, dictGet]
  | cons p rest ih =>
      obtain ⟨k, w⟩ := p
      by_cases hk : k = u
      · subst hk
        simp [dictDel, dictGet, Ne.symm h]
      · by_cases hv : k = v <;> simp [dictDel, dictGet, hk, hv, ih, h]

/-- The FIFO⊆map half of the RequestManager invariant: every uuid in
the deque has a binding in the dict.  (Equivalently: a uuid absent
from the dict is absent from the deque, so any removal from the dict
that, like the reaper's, only retains deque entries still backed by
the dict keeps the two structures consistent.) -/
abbrev RequestManager.fifoConsistent (m : RequestManager) : Prop :=
  ∀ u ∈ m.request_deque, (dictGet m.request_dict u).isSome

/-- The invariant of the two slurm-master fields: the `exists` flag
agrees with the optional host. -/
def masterFieldsAgree (s : DockerhoodStatus) : Prop :=
  s.slurm_master_exists = s.slurm_master_host.isSome

/-- C10: after `DockerhoodStatus` construction and after every
`update()`, `slurm_master_exists` is true iff `slurm_master_host` is
not `None`, whatever the probes report and whatever the previous
snapshot was. -/
theorem status_master_fields_agree (env : Probes) (s : DockerhoodStatus) :
    masterFieldsAgree (DockerhoodStatus.update env s)
      ∧ masterFieldsAgree (DockerhoodStatus.init env) := by
  refine ⟨?_, ?_⟩ <;>
    simp only [masterFieldsAgree, DockerhoodStatus.init,
      DockerhoodStatus.update] <;>
    cases env.slurm_master_host <;> simp

/-- Rank of a request status code along its lifecycle:
`PENDING` before `EXECUTING` before the terminal codes. -/
def statusRank (s : Int) : Nat :=
  if s = Request.PENDING then 0
  else if s = Request.EXECUTING then 1
  else 2

/-- C6: a request's status is monotone over its lifetime (execute
invoked at most once, as the coordinator does): it is `PENDING` at
construction, `EXECUTING` while the action runs, and afterwards
exactly one of the terminal codes `EXECUTED`/`ERROR`, never reverting
to `PENDING` or `EXECUTING`, whatever the action does. -/
theorem request_status_monotone (u : String) (t : Nat) (a : ActionOutcome) :
    (Request.create u t a).status = Request.PENDING
  ∧ ((Request.create u t a).executeStart).status = Request.EXECUTING
  ∧ (((Request.create u t a).execute).1.status = Request.EXECUTED
      ∨ ((Request.create u t a).execute).1.status = Request.ERROR)
  ∧ statusRank (Request.create u t a).status
      < statusRank ((Request.create u t a).executeStart).status
  ∧ statusRank ((Request.create u t a).executeStart).status
      < statusRank ((Request.create u t a).execute).1.status
  ∧ ((Request.create u t a).execute).1.status ≠ Request.PENDING
  ∧ ((Request.create u t a).execute).1.status ≠ Request.EXECUTING := by
  cases a <;>
    simp [Request.create, Request.execute, Request.executeStart,
      Request.executeFinish, statusRank, Request.PENDING, Request.EXECUTING,
      Request.EXECUTED, Request.ERROR]

/-- A manager holding one single pending request with uuid `"a"`,
created at time 0 (used as concrete input below). -/
def onePendingMgr : RequestManager :=
  ((⟨[], [], 86400⟩ : RequestManager).create_request "a" 0
    (ActionOutcome.ok (some "v"))).1

/-- C8, counterexample: the `None` returned by `get_answer` for an
unknown uuid is NOT distinct from every result returned for a
registered request: a registered, still-pending request also answers
`None`, indistinguishable from the unknown uuid `"b"`. -/
theorem unknown_answer_collision :
    onePendingMgr.get_answer "a" = none
  ∧ dictGet onePendingMgr.request_dict "a" ≠ none
  ∧ onePendingMgr.get_answer "b" = none
  ∧ dictGet onePendingMgr.request_dict "b" = none
  ∧ onePendingMgr.get_answer "a" = onePendingMgr.get_answer "b" := by
  decide

/-- C8, amended: `get_request_status` and `get_answer` return `None`
exactly for unknown uuids in the sense that a known uuid always
reports its request's current status (a real status code, never
`None`) and its current answer; but the `None` answer is not a
distinguished value — a registered request that has not produced an
answer yields the same `None` as an unknown uuid. -/
theorem known_unknown_lookup (m : RequestManager) (u : String) :
    (dictGet m.request_dict u = none →
      m.get_request_status u = none ∧ m.get_answer u = none)
  ∧ (∀ r, dictGet m.request_dict u = some r →
      m.get_request_status u = some r.status
        ∧ m.get_answer u = r.answer
        ∧ m.get_request_status u ≠ none) := by
  constructor
  · intro h
    simp [RequestManager.get_request_status, RequestManager.get_answer, h]
  · intro r h
    simp [RequestManager.get_request_status, RequestManager.get_answer, h]

/-- Witness for C8's amended theorem at the concrete one-request
manager: uuid `"b"` is unknown there, uuid `"a"` is known. -/
theorem known_unknown_lookup_witness :
    (onePendingMgr.get_request_status "b" = none
      ∧ onePendingMgr.get_answer "b" = none)
  ∧ (onePendingMgr.get_request_status "a"
        = some (Request.create "a" 0 (ActionOutcome.ok (some "v"))).status
      ∧ onePendingMgr.get_answer "a"
          = (Request.create "a" 0 (ActionOutcome.ok (some "v"))).answer
      ∧ onePendingMgr.get_request_status "a" ≠ none) :=
  ⟨(known_unknown_lookup onePendingMgr "b").1 (by decide),
   (known_unknown_lookup onePendingMgr "a").2
     (Request.create "a" 0 (ActionOutcome.ok (some "v"))) (by decide)⟩

/-- `execute` lets an exception propagate exactly when the action
raised `SystemExit`. -/
theorem execute_raises_iff (r : Request) :
    (r.execute).2 = true ↔ r.action = ActionOutcome.systemExit := by
  cases h : r.action <;>
    simp [Request.execute, Request.executeStart, Request.executeFinish, h]

/-- C5: when the front request's action raises any error other than
the stop signal, `execute()` marks it `ERROR`, stores the last
non-empty line of the traceback (a single line of the traceback text,
never the whole trace) as the answer, and the exception does not
propagate: the coordinator iteration finishes normally, including the
force-refresh and unpause calls, and afterwards `get_request_status`
reports `ERROR`. -/
theorem request_error_reported (m : RequestManager) (u : String)
    (r : Request) (rest : List String) (tb : List String)
    (h1 : m.request_deque = u :: rest)
    (h2 : dictGet m.request_dict u = some r)
    (h3 : r.action = ActionOutcome.error tb)
    (h4 : r.uuid = u) :
    (r.execute).2 = false
  ∧ (r.execute).1.status = Request.ERROR
  ∧ (r.execute).1.answer = (tb.filter (fun l => l ≠ "")).getLast?
  ∧ (∀ s, (r.execute).1.answer = some s → s ∈ tb ∧ s ≠ "")
  ∧ (coordinatorBody m).2.2 = false
  ∧ (coordinatorBody m).2.1
      = [LoopEvent.pause, LoopEvent.forceRefresh, LoopEvent.unpause]
  ∧ ((coordinatorBody m).1).get_request_status u = some Request.ERROR
  ∧ ((coordinatorBody m).1).get_answer u
      = (tb.filter (fun l => l ≠ "")).getLast? := by
  have hx : r.execute
      = ({ r with
            status := Request.ERROR
            answer := (tb.filter (fun l => l ≠ "")).getLast? }, false) := by
    simp [Request.execute, Request.executeStart, Request.executeFinish, h3]
  have hmem : ∀ s, (r.execute).1.answer = some s → s ∈ tb ∧ s ≠ "" := by
    intro s hs
    have hs2 : (tb.filter (fun l => l ≠ "")).getLast? = some s := by
      rw [hx] at hs; exact hs
    have hs' : s ∈ (tb.filter (fun l => l ≠ "")).getLast? :=
      Option.mem_def.mpr hs2
    obtain ⟨hne, hlast⟩ := List.mem_getLast?_eq_getLast hs'
    have : s ∈ tb.filter (fun l => l ≠ "") := hlast ▸ List.getLast_mem hne
    have := List.mem_filter.1 this
    exact ⟨this.1, by simpa using this.2⟩
  have hbody : coordinatorBody m
      = ({ m with
            request_deque := rest
            request_dict := dictSet m.request_dict u
              ({ r with
                  status := Request.ERROR
                  answer := (tb.filter (fun l => l ≠ "")).getLast? }) },
         [LoopEvent.pause, LoopEvent.forceRefresh, LoopEvent.unpause],
         false) := by
    simp [coordinatorBody, RequestManager.get_next_request, h1, h2, hx, h4]
  refine ⟨by rw [hx], by rw [hx], by rw [hx], hmem, by rw [hbody],
    by rw [hbody], ?_, ?_⟩ <;>
    simp [hbody, RequestManager.get_request_status, RequestManager.get_answer,
      dictGet_dictSet_self]

/-- A concrete failing request: its action raises `ValueError`,
giving this formatted traceback. -/
def failReq : Request :=
  Request.create "a" 0 (ActionOutcome.error
    ["Traceback (most recent call last):", "  boom", "", "ValueError: boom"])

/-- A manager whose queue holds just `failReq`. -/
def failMgr : RequestManager :=
  ((⟨[], [], 86400⟩ : RequestManager).create_request "a" 0
    (ActionOutcome.error
      ["Traceback (most recent call last):", "  boom", "",
        "ValueError: boom"])).1

/-- Witness for C5 at the concrete failing request: the answer becomes
the single line `"ValueError: boom"` and the loop continues. -/
theorem request_error_reported_witness :
    (failReq.execute).2 = false
  ∧ (failReq.execute).1.status = Request.ERROR
  ∧ (failReq.execute).1.answer
      = ((["Traceback (most recent call last):", "  boom", "",
            "ValueError: boom"] : List String).filter
          (fun l => l ≠ "")).getLast?
  ∧ (∀ s, (failReq.execute).1.answer = some s →
      s ∈ (["Traceback (most recent call last):", "  boom", "",
            "ValueError: boom"] : List String) ∧ s ≠ "")
  ∧ (coordinatorBody failMgr).2.2 = false
  ∧ (coordinatorBody failMgr).2.1
      = [LoopEvent.pause, LoopEvent.forceRefresh, LoopEvent.unpause]
  ∧ ((coordinatorBody failMgr).1).get_request_status "a"
      = some Request.ERROR
  ∧ ((coordinatorBody failMgr).1).get_answer "a"
      = ((["Traceback (most recent call last):", "  boom", "",
            "ValueError: boom"] : List String).filter
          (fun l => l ≠ "")).getLast? :=
  request_error_reported failMgr "a" failReq []
    ["Traceback (most recent call last):", "  boom", "", "ValueError: boom"]
    (by decide) (by decide) (by decide) (by decide)

/-- C4: when the front request's action raises the stop signal
(`SystemExit`), `execute()` still marks it `EXECUTED` and re-raises;
the coordinator iteration then skips the force-refresh and unpause
calls (only `pause` happened), the loop ends there with the
`SystemExit` propagating, and an iteration lets the loop end only
when the executed action raised `SystemExit`. -/
theorem coordinator_stop_signal (m : RequestManager) (u : String)
    (r : Request) (rest : List String)
    (h1 : m.request_deque = u :: rest)
    (h2 : dictGet m.request_dict u = some r)
    (h3 : r.action = ActionOutcome.systemExit)
    (h4 : r.uuid = u) :
    (r.execute).1.status = Request.EXECUTED
  ∧ (r.execute).2 = true
  ∧ (coordinatorBody m).2.2 = true
  ∧ (coordinatorBody m).2.1 = [LoopEvent.pause]
  ∧ ((coordinatorBody m).1).get_request_status u = some Request.EXECUTED
  ∧ (∀ n : Nat, coordinatorLoop (n + 1) m = some (coordinatorBody m).1)
  ∧ (∀ m₁ : RequestManager, (coordinatorBody m₁).2.2 = true →
      ∃ r₁, (m₁.get_next_request).2 = some r₁
        ∧ r₁.action = ActionOutcome.systemExit)
  ∧ (∀ (k : Nat) (m₀ mf : RequestManager),
      coordinatorLoop k m₀ = some mf →
      ∃ m₁, (coordinatorBody m₁).2.2 = true
        ∧ (coordinatorBody m₁).1 = mf) := by
  have hx : r.execute = ({ r with status := Request.EXECUTED }, true) := by
    simp [Request.execute, Request.executeStart, Request.executeFinish, h3]
  have hbody : coordinatorBody m
      = ({ m with
            request_deque := rest
            request_dict := dictSet m.request_dict u
              ({ r with status := Request.EXECUTED }) },
         [LoopEvent.pause], true) := by
    simp [coordinatorBody, RequestManager.get_next_request, h1, h2, hx, h4]
  refine ⟨by rw [hx], by rw [hx], by rw [hbody], by rw [hbody], ?_, ?_, ?_, ?_⟩
  · simp [hbody, RequestManager.get_request_status, dictGet_dictSet_self]
  · intro n
    simp [coordinatorLoop, hbody]
  · intro m₁ hm
    unfold coordinatorBody at hm
    rcases hq : m₁.get_next_request with ⟨m₁', o⟩
    rw [hq] at hm
    cases o with
    | none => simp at hm
    | some r₁ =>
        refine ⟨r₁, ?_, ?_⟩
        · rfl
        · by_cases hr : (r₁.execute).2
          · exact (execute_raises_iff r₁).1 hr
          · simp [hr] at hm
  · intro k
    induction k with
    | zero => intro m₀ mf h; simp [coordinatorLoop] at h
    | succ n ih =>
        intro m₀ mf h
        unfold coordinatorLoop at h
        rcases hb : coordinatorBody m₀ with ⟨m', tr, b⟩
        rw [hb] at h
        cases b with
        | true => exact ⟨m₀, by rw [hb], by rw [hb]; exact Option.some.inj h⟩
        | false => exact ih m' mf h

/-- A concrete request whose action raises `SystemExit`
(the shut-down action). -/
def stopReq : Request := Request.create "a" 0 ActionOutcome.systemExit

/-- A manager whose queue holds just `stopReq`. -/
def stopMgr : RequestManager :=
  ((⟨[], [], 86400⟩ : RequestManager).create_request "a" 0
    ActionOutcome.systemExit).1

/-- Witness for C4 at the concrete shut-down request. -/
theorem coordinator_stop_signal_witness :
    (stopReq.execute).1.status = Request.EXECUTED
  ∧ (stopReq.execute).2 = true
  ∧ (coordinatorBody stopMgr).2.2 = true
  ∧ (coordinatorBody stopMgr).2.1 = [LoopEvent.pause]
  ∧ ((coordinatorBody stopMgr).1).get_request_status "a"
      = some Request.EXECUTED
  ∧ (∀ n : Nat,
      coordinatorLoop (n + 1) stopMgr = some (coordinatorBody stopMgr).1)
  ∧ (∀ m₁ : RequestManager, (coordinatorBody m₁).2.2 = true →
      ∃ r₁, (m₁.get_next_request).2 = some r₁
        ∧ r₁.action = ActionOutcome.systemExit)
  ∧ (∀ (k : Nat) (m₀ mf : RequestManager),
      coordinatorLoop k m₀ = some mf →
      ∃ m₁, (coordinatorBody m₁).2.2 = true
        ∧ (coordinatorBody m₁).1 = mf) :=
  coordinator_stop_signal stopMgr "a" stopReq []
    (by decide) (by decide) (by decide) (by decide)

/-- The discard pass keeps the queue duplicate-free and keeps every
queued uuid backed by a dict entry: if the processed queue so far and
the remaining old queue are jointly duplicate-free and every already
re-queued uuid has a dict binding, the same holds of the final queue
and dict. -/
theorem sweepGo_consistent (now : Nat) (disc : Int) :
    ∀ (old newQ : List String) (dict : List (String × Request)),
      (newQ ++ old).Nodup →
      (∀ v ∈ newQ, (dictGet dict v).isSome) →
      (sweepGo dict old newQ now disc).2.Nodup
        ∧ ∀ v ∈ (sweepGo dict old newQ now disc).2,
            (dictGet (sweepGo dict old newQ now disc).1 v).isSome := by
  intro old
  induction old with
  | nil =>
      intro newQ dict hnd hq
      refine ⟨?_, ?_⟩
      · show newQ.Nodup
        simpa using hnd
      · show ∀ v ∈ newQ, (dictGet dict v).isSome
        exact hq
  | cons u rest ih =>
      intro newQ dict hnd hq
      have hnd' : (newQ ++ rest).Nodup := by
        rw [List.nodup_append] at hnd ⊢
        refine ⟨hnd.1, (List.nodup_cons.1 hnd.2.1).2, ?_⟩
        intro x hx hx'
        exact hnd.2.2 hx (List.mem_cons_of_mem _ hx')
      have hu_not : u ∉ newQ := fun hu =>
        (List.nodup_append.1 hnd).2.2 hu (List.mem_cons_self u rest)
      cases hdu : dictGet dict u with
      | none =>
          have heq : sweepGo dict (u :: rest) newQ now disc
              = sweepGo dict rest newQ now disc := by
            simp [sweepGo, hdu]
          rw [heq]
          exact ih newQ dict hnd' hq
      | some r =>
          by_cases hage : r.age now > disc
          · have heq : sweepGo dict (u :: rest) newQ now disc
                = sweepGo (dictDel dict u) rest newQ now disc := by
              simp [sweepGo, hdu, hage]
            rw [heq]
            refine ih newQ (dictDel dict u) hnd' ?_
            intro v hv
            rw [dictGet_dictDel_ne dict u v (fun hvu => hu_not (hvu ▸ hv))]
            exact hq v hv
          · have heq : sweepGo dict (u :: rest) newQ now disc
                = sweepGo dict rest (newQ ++ [u]) now disc := by
              simp [sweepGo, hdu, hage]
            rw [heq]
            refine ih (newQ ++ [u]) dict ?_ ?_
            · rw [List.append_assoc]
              simpa using hnd
            · intro v hv
              rcases List.mem_append.1 hv with h | h
              · exact hq v h
              · have hv' : v = u := by simpa using h
                rw [hv', hdu]
                rfl

/-- C9, counterexample: the "removal from either structure removes it
from the other" half fails after `get_next_request`: uuid `"a"` is in
both structures, and after `get_next_request` it has left the FIFO
but kept its map entry. -/
theorem fifo_removal_keeps_map_entry :
    ("a" ∈ onePendingMgr.request_deque
      ∧ dictGet onePendingMgr.request_dict "a" ≠ none)
  ∧ "a" ∉ (onePendingMgr.get_next_request).1.request_deque
  ∧ dictGet (onePendingMgr.get_next_request).1.request_dict "a" ≠ none := by
  decide

/-- C9, amended: after each of `create_request`, `get_next_request`
and a reaper sweep, the FIFO stays duplicate-free and every id in the
FIFO has an entry in the map (hence an id removed from the map is no
longer in the FIFO); `get_next_request`, however, removes the id from
the FIFO while keeping its map entry. The hypotheses hold of every
reachable manager: uuids come fresh from `uuid4()`. -/
theorem fifo_map_consistency (m : RequestManager) (uuid : String)
    (t : Nat) (a : ActionOutcome) (now : Nat)
    (hnd : m.request_deque.Nodup)
    (hfc : m.fifoConsistent)
    (hfresh : uuid ∉ m.request_deque) :
    ((m.create_request uuid t a).1.request_deque.Nodup
      ∧ (m.create_request uuid t a).1.fifoConsistent)
  ∧ ((m.get_next_request).1.request_deque.Nodup
      ∧ (m.get_next_request).1.fifoConsistent)
  ∧ ((m.sweep now).request_deque.Nodup ∧ (m.sweep now).fifoConsistent) := by
  refine ⟨⟨?_, ?_⟩, ?_, ?_⟩
  · show (m.request_deque ++ [uuid]).Nodup
    rw [List.nodup_append]
    refine ⟨hnd, List.nodup_singleton uuid, ?_⟩
    intro x hx hx'
    have hx2 : x = uuid := by simpa using hx'
    exact hfresh (hx2 ▸ hx)
  · intro v hv
    have hv' : v ∈ m.request_deque ++ [uuid] := hv
    rcases List.mem_append.1 hv' with h | h
    · show (dictGet ((uuid, Request.create uuid t a) :: m.request_dict)
        v).isSome
      by_cases he : uuid = v
      · simp [dictGet, he]
      · simp only [dictGet, if_neg he]
        exact hfc v h
    · have hv2 : v = uuid := by simpa using h
      subst hv2
      simp [dictGet, Request.create]
  · rcases hd : m.request_deque with _ | ⟨u, rest⟩
    · have heq : m.get_next_request = (m, none) := by
        simp [RequestManager.get_next_request, hd]
      rw [heq]
      exact ⟨hnd, hfc⟩
    · have heq : (m.get_next_request).1 = { m with request_deque := rest } := by
        simp [RequestManager.get_next_request, hd]
      rw [heq]
      constructor
      · exact ((show (u :: rest).Nodup from hd ▸ hnd)).of_cons
      · intro v hv
        exact hfc v (hd ▸ List.mem_cons_of_mem u hv)
  · have h0 : (([] : List String) ++ m.request_deque).Nodup := by
      simpa using hnd
    have h1 : ∀ v ∈ ([] : List String),
        (dictGet m.request_dict v).isSome := by simp
    obtain ⟨hn, hc⟩ := sweepGo_consistent now m.discard_time
      m.request_deque [] m.request_dict h0 h1
    exact ⟨hn, hc⟩

/-- Witness for C9's amended theorem at the concrete one-request
manager. -/
theorem fifo_map_consistency_witness :
    ((onePendingMgr.create_request "b" 1 (ActionOutcome.ok none)).1.request_deque.Nodup
      ∧ (onePendingMgr.create_request "b" 1
          (ActionOutcome.ok none)).1.fifoConsistent)
  ∧ ((onePendingMgr.get_next_request).1.request_deque.Nodup
      ∧ (onePendingMgr.get_next_request).1.fifoConsistent)
  ∧ ((onePendingMgr.sweep 5).request_deque.Nodup
      ∧ (onePendingMgr.sweep 5).fifoConsistent) :=
  fifo_map_consistency onePendingMgr "b" 1 (ActionOutcome.ok none) 5
    (by decide) (by decide) (by decide)

/-- A manager holding two requests created at time 0: `"a"` (queued
first) and `"b"`. -/
def twoReqMgr : RequestManager :=
  (((⟨[], [], 86400⟩ : RequestManager).create_request "a" 0
      (ActionOutcome.ok (some "done"))).1.create_request "b" 0
    (ActionOutcome.ok none)).1

/-- `twoReqMgr` after the coordinator executed the front request
`"a"` (so `"a"` left the FIFO but kept its dict entry) and a reaper
sweep ran at time 100000, well past `discard_time = 86400`. -/
def sweptMgr : RequestManager :=
  ((coordinatorBody twoReqMgr).1).sweep 100000

/-- C1: evaluation at the failing input. Both requests are far older
than `discard_time` at the sweep, yet only the still-queued `"b"` is
evicted; the already-executed `"a"` — no longer in the FIFO, because
`run` walks only the FIFO — survives the sweep and stays reachable
through `get_request_status`/`get_answer`, against the documented
"after discard_time, the request is deleted". -/
theorem reaper_misses_executed :
    (Request.create "a" 0 (ActionOutcome.ok (some "done"))).age 100000
      > (86400 : Int)
  ∧ sweptMgr.get_request_status "b" = none
  ∧ sweptMgr.get_answer "b" = none
  ∧ "a" ∉ (coordinatorBody twoReqMgr).1.request_deque
  ∧ sweptMgr.get_request_status "a" = some Request.EXECUTED
  ∧ sweptMgr.get_answer "a" = some "done"
  ∧ sweptMgr.request_deque = [] := by
  decide

/-- C2: evaluation of the `StatusUpdater.run` loop in the ACTIVE
state. Both inner loops of `run` are guarded by `while self._paused:`,
so with the paused flag unset neither runs: however many outer
iterations and inner-loop chances the loop gets, not a single
`self._update()` happens, and the flag stays unset. (The claim's
periodic refresh per `update_interval` therefore never occurs while
ACTIVE.) -/
theorem updater_active_never_refreshes (n fA fB : Nat)
    (s : UpdaterLoopState) (h : s.paused = false) :
    (updaterRun n fA fB s).updates = s.updates
  ∧ (updaterRun n fA fB s).paused = false := by
  induction n generalizing s with
  | zero => exact ⟨rfl, h⟩
  | succ k ih =>
      have hA : updaterLoopA fA s = s := by
        cases fA <;> simp [updaterLoopA, h]
      have hB : updaterLoopB fB s = s := by
        cases fB <;> simp [updaterLoopB, h]
      rw [updaterRun, hA, hB]
      by_cases hs : s.stop_flag = true
      · rw [if_pos hs]
        exact ⟨rfl, h⟩
      · rw [if_neg hs]
        exact ih { s with time_without_update := 0 } h

/-- A `StatusUpdater` state in the ACTIVE configuration (paused flag
unset) with the default `update_time = 5` s and `responsiveness =
0.5` s (50 and 5 tenths) and no refresh performed yet. -/
def activeUpdater : UpdaterLoopState :=
  { stop_flag := false
    update_time := 50
    resp := 5
    update_now := false
    executed := false
    paused := false
    time_without_update := 0
    updates := 0 }

/-- Witness for C2's theorem at the concrete ACTIVE state. -/
theorem updater_active_never_refreshes_witness :
    (updaterRun 5 4 4 activeUpdater).updates = activeUpdater.updates
  ∧ (updaterRun 5 4 4 activeUpdater).paused = false :=
  updater_active_never_refreshes 5 4 4 activeUpdater rfl

/-- The `StatusUpdater` state right after the coordinator called
`pause()`: paused flag set, no stop, no pending force-refresh,
defaults `update_time = 5` s, `responsiveness = 0.5` s (50 and 5
tenths), timer at 0. -/
def pausedUpdater : UpdaterLoopState :=
  { stop_flag := false
    update_time := 50
    resp := 5
    update_now := false
    executed := false
    paused := true
    time_without_update := 0
    updates := 0 }

/-- C3: evaluation of the `StatusUpdater.run` loop in the PAUSED
state. Because the FIRST inner loop — the one with the
timer-driven refresh — is the loop guarded by `while self._paused:`,
a paused updater performs a periodic refresh: starting from
`pausedUpdater`, eleven ticks accumulate 5.5 s > `update_time` and
trigger `self._update()` (updates = 1, timer reset), although
`_update_now` was false at every step, i.e. no force-refresh was ever
pending. Ten ticks (5.0 s) do not yet trigger it. -/
theorem updater_paused_periodic_refresh :
    (updaterLoopA 11 pausedUpdater).updates = 1
  ∧ (updaterLoopA 10 pausedUpdater).updates = 0
  ∧ (updaterLoopA 11 pausedUpdater).time_without_update = 0
  ∧ ((List.range 12).all
      fun k => !(updaterLoopA k pausedUpdater).update_now) = true := by
  decide

/-- With the stop flag unset, one reaper loop iteration never breaks,
always advances `time_passed` by `responsiveness`, and leaves the
flag and `responsiveness` unchanged. -/
theorem reaperTick_no_stop (s : ReaperLoopState) (h : s.stop_flag = false) :
    (reaperTick s).2 = false
  ∧ (reaperTick s).1.time_passed = s.time_passed + s.responsiveness
  ∧ (reaperTick s).1.stop_flag = false
  ∧ (reaperTick s).1.responsiveness = s.responsiveness := by
  by_cases hc : s.time_passed + s.responsiveness < 36000 <;>
    simp [reaperTick, h, hc]

/-- C7: the reaper's schedule. One loop iteration of
`RequestManager.run` increments `time_passed` and never resets it, so
as soon as `time_passed` reaches one hour the discard pass runs on EVERY
tick: two consecutive iterations — `responsiveness` seconds apart, not
an hour — both sweep. The last conjunct shows `time_passed` grows
linearly forever (it is never restarted), so this state is reached by
every run that lives an hour. -/
theorem reaper_sweeps_every_tick (s : ReaperLoopState)
    (h1 : s.stop_flag = false) (h2 : 0 ≤ s.responsiveness)
    (h3 : 36000 ≤ s.time_passed + s.responsiveness) :
    (reaperTick s).1.sweeps = s.sweeps + 1
  ∧ (reaperTick (reaperTick s).1).1.sweeps = s.sweeps + 2
  ∧ (reaperTick s).1.time_passed = s.time_passed + s.responsiveness
  ∧ (∀ (n : Nat) (s₀ : ReaperLoopState), s₀.stop_flag = false →
      (reaperIter n s₀).time_passed
        = s₀.time_passed + n * s₀.responsiveness) := by
  have hlt : ¬(s.time_passed + s.responsiveness < 36000) := not_lt.2 h3
  have ht1 : reaperTick s
      = ({ s with
            time_passed := s.time_passed + s.responsiveness
            sweeps := s.sweeps + 1 }, false) := by
    simp [reaperTick, h1, hlt]
  have h3' : (36000 : Int)
      ≤ s.time_passed + s.responsiveness + s.responsiveness :=
    le_trans h3 (by linarith)
  have hlt' : ¬(s.time_passed + s.responsiveness + s.responsiveness
      < 36000) := not_lt.2 h3'
  have ht2 : reaperTick ({ s with
        time_passed := s.time_passed + s.responsiveness
        sweeps := s.sweeps + 1 } : ReaperLoopState)
      = ({ s with
            time_passed := s.time_passed + s.responsiveness
              + s.responsiveness
            sweeps := s.sweeps + 2 }, false) := by
    simp [reaperTick, h1, hlt']
  refine ⟨by rw [ht1], by rw [ht1, ht2], by rw [ht1], ?_⟩
  intro n
  induction n with
  | zero => intro s₀ h0; simp [reaperIter]
  | succ k ih =>
      intro s₀ h0
      obtain ⟨hb, htp, hsf, hre⟩ := reaperTick_no_stop s₀ h0
      have hit : reaperIter (k + 1) s₀ = reaperIter k (reaperTick s₀).1 := by
        simp [reaperIter, hb]
      rw [hit, ih (reaperTick s₀).1 hsf, htp, hre]
      push_cast
      ring

/-- The reaper loop state one hour into a run with the default
`responsiveness = 0.5` s: 7199 ticks have accumulated
`time_passed = 3599.5` s (35995 tenths), no sweep yet. -/
def hourOldReaper : ReaperLoopState :=
  { time_passed := 35995
    responsiveness := 5
    stop_flag := false
    sweeps := 0 }

/-- Witness for C7 at the concrete hour-old reaper state: the next
two ticks, half a second apart, both sweep. -/
theorem reaper_sweeps_every_tick_witness :
    (reaperTick hourOldReaper).1.sweeps = hourOldReaper.sweeps + 1
  ∧ (reaperTick (reaperTick hourOldReaper).1).1.sweeps
      = hourOldReaper.sweeps + 2
  ∧ (reaperTick hourOldReaper).1.time_passed
      = hourOldReaper.time_passed + hourOldReaper.responsiveness
  ∧ (∀ (n : Nat) (s₀ : ReaperLoopState), s₀.stop_flag = false →
      (reaperIter n s₀).time_passed
        = s₀.time_passed + n * s₀.responsiveness) :=
  reaper_sweeps_every_tick hourOldReaper rfl (by decide) (by decide)

end Dockerhood
